import Mathlib

/-
  Verification of the data-validation core of the
  End-to-End-ML-Wine-Quality-Prediction repository.

  Embedded from src/src/datascience/utils/common.py (read_yaml,
  create_directories, save_json, load_json) and
  src/src/datascience/pipeline/data_validation_pipeline.py
  (DataValidationTrainingPipeline.initiate_data_validation).
  The component file components/data_validation.py and
  config/configuration.py are not part of the sources; the pieces they
  provide (validate_all_columns, get_data_validation_config) are modelled
  from the specification, as marked in their doc comments.
-/

namespace WineQuality

/-- JSON-style values, covering what the yaml and json libraries used in
utils/common.py hand back: scalars, arrays, and string-keyed mappings. -/
inductive Jval where
  | null : Jval
  | bool (b : Bool) : Jval
  | num (n : Int) : Jval
  | str (s : String) : Jval
  | arr (xs : List Jval) : Jval
  | obj (fields : List (String × Jval)) : Jval

/-- Content of a file on disk, distinguished the way the pipeline reads it:
a yaml document that parses to a mapping, an empty yaml document
(yaml.safe_load gives None, so ConfigBox raises BoxValueError), an
unparseable yaml document, a tabular dataset of which only the column
names are consulted, a json document, or the status record the validator
writes. -/
inductive FileContent where
  | yamlMapping (m : List (String × Jval)) : FileContent
  | yamlEmpty : FileContent
  | yamlMalformed : FileContent
  | csv (cols : List String) : FileContent
  | json (j : Jval) : FileContent
  | statusRecord (b : Bool) : FileContent

/-- A file system: an association of paths to file contents. -/
abbrev FS := List (String × FileContent)

/-- Reading the file at path p, None when no such file exists. -/
def fsRead (fs : FS) (p : String) : Option FileContent :=
  (fs.find? (fun e => e.1 == p)).map (fun e => e.2)

/-- Writing content c at path p, overwriting any prior content there. -/
def fsWrite (fs : FS) (p : String) (c : FileContent) : FS :=
  (p, c) :: fs.filter (fun e => e.1 != p)

/-- Errors surfaced by read_yaml in utils/common.py: the ValueError raised
when the yaml file is empty, an I/O failure opening the file, and a parse
failure from yaml.safe_load; the latter two are re-raised unchanged. -/
inductive ReadYamlError where
  | valueError (msg : String) : ReadYamlError
  | ioError (msg : String) : ReadYamlError
  | parseError (msg : String) : ReadYamlError

/-- Embedding of read_yaml from utils/common.py: open the file and parse it
with yaml.safe_load; an empty document makes ConfigBox raise BoxValueError
which the function converts to ValueError "yaml file is empty"; every
other failure (missing file, parse error) is re-raised; on success the
parsed mapping is returned. -/
def read_yaml (fs : FS) (p : String) : Except ReadYamlError (List (String × Jval)) :=
  match fsRead fs p with
  | none => .error (.ioError "file not found")
  | some (.yamlMapping m) => .ok m
  | some .yamlEmpty => .error (.valueError "yaml file is empty")
  | some _ => .error (.parseError "could not parse yaml")

/-- Embedding of os.makedirs(path, exist_ok=True) over a set of existing
directories, represented as a list of paths: the path is added when
missing and nothing happens when it already exists; no error either way. -/
def makedirs (dirs : List String) (p : String) : List String :=
  if p ∈ dirs then dirs else p :: dirs

/-- Embedding of create_directories from utils/common.py: iterate over the
given paths and call os.makedirs(path, exist_ok=True) on each. -/
def create_directories (dirs : List String) (paths : List String) : List String :=
  paths.foldl makedirs dirs

/-- Embedding of save_json from utils/common.py: serialize the dictionary
with json.dump and write it at the given path, truncating the file. -/
def save_json (fs : FS) (p : String) (data : List (String × Jval)) : FS :=
  fsWrite fs p (.json (.obj data))

/-- Errors surfaced by load_json in utils/common.py: an I/O failure opening
the file or a json.load parse failure, both propagated to the caller. -/
inductive LoadJsonError where
  | ioError (msg : String) : LoadJsonError
  | parseError (msg : String) : LoadJsonError

/-- Embedding of load_json from utils/common.py: open the file, parse it
with json.load and return the value wrapped in ConfigBox; the wrapping
only changes the access style, not the mapping itself. -/
def load_json (fs : FS) (p : String) : Except LoadJsonError Jval :=
  match fsRead fs p with
  | some (.json j) => .ok j
  | some _ => .error (.parseError "not a json document")
  | none => .error (.ioError "file not found")

/-- ValidationConfig from the data model of the configuration layer: the
dataset path, the status file path and the schema path, constructed once
per run and immutable. -/
structure ValidationConfig where
  dataset_path : String
  status_file_path : String
  schema_path : String

/-- Looking up a string-valued entry of a parsed mapping. -/
def lookupStr (m : List (String × Jval)) (k : String) : Option String :=
  match (m.find? (fun e => e.1 == k)).map (fun e => e.2) with
  | some (Jval.str s) => some s
  | _ => none

/-- Modelled from the spec: the extraction of the three paths of a
ValidationConfig out of the parsed top-level configuration mapping, done
by ConfigurationManager in config/configuration.py, a file the sources do
not include. A mapping missing one of the paths is malformed. -/
def configOfMapping (m : List (String × Jval)) : Option ValidationConfig :=
  match lookupStr m "dataset_path", lookupStr m "status_file_path",
        lookupStr m "schema_path" with
  | some d, some st, some sc => some ⟨d, st, sc⟩
  | _, _, _ => none

/-- Errors of a validation run: a configuration file that cannot be read,
a configuration mapping missing required paths, a schema file that cannot
be read, and an unreadable dataset. All propagate to the caller. -/
inductive RunError where
  | configError (e : ReadYamlError) : RunError
  | malformedConfig : RunError
  | schemaError (e : ReadYamlError) : RunError
  | datasetUnreadable : RunError

/-- Modelled from the spec: ConfigurationManager.get_data_validation_config
from config/configuration.py, a file the sources do not include. It reads
the top-level configuration file with read_yaml and resolves the three
paths; missing or malformed configuration raises immediately. -/
def get_data_validation_config (fs : FS) (configPath : String) :
    Except RunError ValidationConfig :=
  match read_yaml fs configPath with
  | .error e => .error (.configError e)
  | .ok m =>
    match configOfMapping m with
    | some c => .ok c
    | none => .error .malformedConfig

/-- Modelled from the spec: the column check of
DataValiadtion.validate_all_columns from components/data_validation.py, a
file the sources do not include. For every column name of the dataset it
checks membership in the schema key set; if any dataset column is absent
the result is False, otherwise True. -/
def validate_all_columns (cols : List String) (schemaKeys : List String) : Bool :=
  cols.all (fun c => schemaKeys.contains c)

/-- The column names declared as keys of a parsed schema mapping. -/
def schema_keys (m : List (String × Jval)) : List String :=
  m.map (fun e => e.1)

/-- Modelled from the spec: the full validation run driven by
DataValidationTrainingPipeline.initiate_data_validation in
pipeline/data_validation_pipeline.py: resolve the configuration, load the
schema and the dataset, compare the dataset columns against the schema
keys, and persist the boolean result to the status file, overwriting any
prior content; any load failure propagates before the status file is
touched. The pair returned is the outcome and the file system after the
run. -/
def initiate_data_validation (fs : FS) (configPath : String) :
    Except RunError Bool × FS :=
  match get_data_validation_config fs configPath with
  | .error e => (.error e, fs)
  | .ok cfg =>
    match read_yaml fs cfg.schema_path with
    | .error e => (.error (.schemaError e), fs)
    | .ok m =>
      match fsRead fs cfg.dataset_path with
      | some (.csv cols) =>
        let result := validate_all_columns cols (schema_keys m)
        (.ok result, fsWrite fs cfg.status_file_path (.statusRecord result))
      | _ => (.error .datasetUnreadable, fs)

/-! Helper lemmas about the file system model. -/

theorem fsRead_fsWrite_same (fs : FS) (p : String) (c : FileContent) :
    fsRead (fsWrite fs p c) p = some c := by
  simp [fsRead, fsWrite, List.find?]

theorem find?_filter_ne (fs : FS) (p q : String) (h : q ≠ p) :
    (fs.filter (fun e => e.1 != p)).find? (fun e => e.1 == q)
      = fs.find? (fun e => e.1 == q) := by
  induction fs with
  | nil => rfl
  | cons a t ih =>
    by_cases hp : a.1 = p
    · have hq : ¬((a.1 == q) = true) := by
        simp only [beq_iff_eq, hp]
        exact fun hh => h hh.symm
      rw [List.filter_cons, if_neg (by simp [hp]),
        @List.find?_cons_of_neg _ (fun e => e.1 == q) a t hq, ih]
    · by_cases hqq : a.1 = q
      · have hq : ((a.1 == q) = true) := by simp [hqq]
        rw [List.filter_cons, if_pos (by simp [hp]),
          @List.find?_cons_of_pos _ (fun e => e.1 == q) a
            (List.filter (fun e => e.1 != p) t) hq,
          @List.find?_cons_of_pos _ (fun e => e.1 == q) a t hq]
      · have hq : ¬((a.1 == q) = true) := by simp [hqq]
        rw [List.filter_cons, if_pos (by simp [hp]),
          @List.find?_cons_of_neg _ (fun e => e.1 == q) a
            (List.filter (fun e => e.1 != p) t) hq,
          @List.find?_cons_of_neg _ (fun e => e.1 == q) a t hq, ih]

theorem fsRead_fsWrite_ne (fs : FS) (p q : String) (c : FileContent) (h : q ≠ p) :
    fsRead (fsWrite fs p c) q = fsRead fs q := by
  have hpq : (p == q) = false := by
    simp only [beq_eq_false_iff_ne, ne_eq]
    exact fun hh => h hh.symm
  simp [fsRead, fsWrite, List.find?, hpq, find?_filter_ne fs p q h]

theorem filter_fsWrite_self (fs : FS) (p : String) (c : FileContent) :
    (fsWrite fs p c).filter (fun e => e.1 == p) = [(p, c)] := by
  simp [fsWrite, List.filter_filter]

/-- The validator returns true exactly when every dataset column is among
the given schema keys. -/
theorem validate_eq_true_iff (D keys : List String) :
    validate_all_columns D keys = true ↔ ∀ c ∈ D, c ∈ keys := by
  simp [validate_all_columns, List.all_eq_true]

/-- C1: validate_all_columns over a dataset D and a schema S returns true
exactly when the column names of D form a subset of the keys of S; a
schema key used by no dataset column never changes the result, and a
dataset with zero columns validates to true against any schema. -/
theorem validate_all_columns_iff_subset (D : List String) (S : List (String × Jval)) :
    (validate_all_columns D (schema_keys S) = true ↔ ∀ c ∈ D, c ∈ schema_keys S) ∧
    (∀ k v, k ∉ D →
      validate_all_columns D (schema_keys ((k, v) :: S))
        = validate_all_columns D (schema_keys S)) ∧
    validate_all_columns [] (schema_keys S) = true := by
  refine ⟨validate_eq_true_iff D (schema_keys S), ?_, rfl⟩
  intro k v hk
  rw [Bool.eq_iff_iff, validate_eq_true_iff, validate_eq_true_iff]
  constructor
  · intro hall c hc
    have h1 := hall c hc
    simp only [schema_keys, List.map_cons, List.mem_cons] at h1
    rcases h1 with h1 | h1
    · exact absurd (h1 ▸ hc) hk
    · exact h1
  · intro hall c hc
    have h1 := hall c hc
    simp only [schema_keys, List.map_cons, List.mem_cons]
    exact Or.inr h1

/-- C6: the validation result does not change when duplicate occurrences
of a column name are removed from the dataset. -/
theorem validate_all_columns_dedup (D : List String) (S : List (String × Jval)) :
    validate_all_columns D.dedup (schema_keys S)
      = validate_all_columns D (schema_keys S) := by
  rw [Bool.eq_iff_iff, validate_eq_true_iff, validate_eq_true_iff]
  simp

/-- C7: read_yaml raises rather than returning a value whenever the file
is empty or malformed: an empty yaml file raises the ValueError naming the
empty file, a parse or open failure is propagated as an error, and on
success the parsed mapping is returned. -/
theorem read_yaml_error_behavior (fs : FS) (p : String) :
    (fsRead fs p = some .yamlEmpty →
      read_yaml fs p = .error (.valueError "yaml file is empty")) ∧
    (fsRead fs p = some .yamlMalformed →
      read_yaml fs p = .error (.parseError "could not parse yaml")) ∧
    (fsRead fs p = none → read_yaml fs p = .error (.ioError "file not found")) ∧
    (∀ m, fsRead fs p = some (.yamlMapping m) → read_yaml fs p = .ok m) := by
  refine ⟨fun h => by simp [read_yaml, h], fun h => by simp [read_yaml, h],
          fun h => by simp [read_yaml, h], fun m h => by simp [read_yaml, h]⟩

/-- Witness for C7 at concrete file systems. -/
theorem read_yaml_error_behavior_witness :
    read_yaml [("e.yaml", FileContent.yamlEmpty)] "e.yaml"
        = .error (.valueError "yaml file is empty") ∧
    read_yaml [("m.yaml", FileContent.yamlMalformed)] "m.yaml"
        = .error (.parseError "could not parse yaml") ∧
    read_yaml [] "none.yaml" = .error (.ioError "file not found") ∧
    read_yaml [("s.yaml", FileContent.yamlMapping [("age", Jval.str "int64")])] "s.yaml"
        = .ok [("age", Jval.str "int64")] :=
  ⟨(read_yaml_error_behavior _ _).1 rfl,
   (read_yaml_error_behavior _ _).2.1 rfl,
   (read_yaml_error_behavior _ _).2.2.1 rfl,
   (read_yaml_error_behavior _ _).2.2.2 _ rfl⟩

/-! Helper lemmas for create_directories. -/

theorem mem_makedirs (dirs : List String) (p q : String) (h : q ∈ dirs) :
    q ∈ makedirs dirs p := by
  unfold makedirs; split
  · exact h
  · exact List.Mem.tail _ h

theorem mem_makedirs_self (dirs : List String) (p : String) : p ∈ makedirs dirs p := by
  unfold makedirs; split
  · assumption
  · exact List.Mem.head _

theorem makedirs_of_mem (dirs : List String) (p : String) (h : p ∈ dirs) :
    makedirs dirs p = dirs := by
  simp [makedirs, h]

theorem mem_create_directories_of_mem (paths : List String) :
    ∀ dirs q, q ∈ dirs → q ∈ create_directories dirs paths := by
  induction paths with
  | nil => intro dirs q h; exact h
  | cons a t ih =>
    intro dirs q h
    exact ih (makedirs dirs a) q (mem_makedirs dirs a q h)

theorem mem_create_directories_of_mem_paths (paths : List String) :
    ∀ dirs q, q ∈ paths → q ∈ create_directories dirs paths := by
  induction paths with
  | nil => intro dirs q h; cases h
  | cons a t ih =>
    intro dirs q h
    cases h with
    | head =>
      exact mem_create_directories_of_mem t (makedirs dirs a) a
        (mem_makedirs_self dirs a)
    | tail _ h2 => exact ih (makedirs dirs a) q h2

theorem create_directories_noop (paths : List String) :
    ∀ dirs, (∀ q ∈ paths, q ∈ dirs) → create_directories dirs paths = dirs := by
  induction paths with
  | nil => intro dirs _; rfl
  | cons a t ih =>
    intro dirs h
    show create_directories (makedirs dirs a) t = dirs
    rw [makedirs_of_mem dirs a (h a (List.Mem.head t))]
    exact ih dirs (fun q hq => h q (List.Mem.tail a hq))

/-- C8: create_directories makes every listed path exist afterwards,
preserves already existing directories, succeeds without error and leaves
the directory set unchanged when every listed path already exists, and is
idempotent. -/
theorem create_directories_spec (dirs paths : List String) :
    (∀ q ∈ paths, q ∈ create_directories dirs paths) ∧
    (∀ q ∈ dirs, q ∈ create_directories dirs paths) ∧
    ((∀ q ∈ paths, q ∈ dirs) → create_directories dirs paths = dirs) ∧
    create_directories (create_directories dirs paths) paths
      = create_directories dirs paths := by
  refine ⟨fun q hq => mem_create_directories_of_mem_paths paths dirs q hq,
          fun q hq => mem_create_directories_of_mem paths dirs q hq,
          create_directories_noop paths dirs, ?_⟩
  exact create_directories_noop paths (create_directories dirs paths)
    (fun q hq => mem_create_directories_of_mem_paths paths dirs q hq)

/-- Witness for C8 at concrete directory sets. -/
theorem create_directories_spec_witness :
    ("a" ∈ create_directories ["b"] ["a", "b"]) ∧
    ("b" ∈ create_directories ["b"] ["a", "b"]) ∧
    (create_directories ["a", "b"] ["a", "b"] = ["a", "b"]) ∧
    create_directories (create_directories ["b"] ["a", "b"]) ["a", "b"]
      = create_directories ["b"] ["a", "b"] :=
  ⟨(create_directories_spec ["b"] ["a", "b"]).1 "a" (by decide),
   (create_directories_spec ["b"] ["a", "b"]).2.1 "b" (by decide),
   (create_directories_spec ["a", "b"] ["a", "b"]).2.2.1 (by decide),
   (create_directories_spec ["b"] ["a", "b"]).2.2.2⟩

/-- C10: save_json followed by load_json at the same path yields the
dictionary that was saved, whatever the prior content of the path. -/
theorem save_json_load_json_roundtrip (fs : FS) (p : String)
    (d : List (String × Jval)) :
    load_json (save_json fs p d) p = .ok (.obj d) := by
  simp [load_json, save_json, fsRead_fsWrite_same]

/-- read_yaml only looks at its own path, so a write elsewhere does not
change its result. -/
theorem read_yaml_fsWrite_ne (fs : FS) (a q : String) (c : FileContent)
    (h : q ≠ a) :
    read_yaml (fsWrite fs a c) q = read_yaml fs q := by
  unfold read_yaml
  rw [fsRead_fsWrite_ne fs a q c h]

/-- Witness for C1 at concrete datasets and schemas. -/
theorem validate_all_columns_iff_subset_witness :
    (validate_all_columns ["age"] (schema_keys [("age", Jval.str "int64")]) = true) ∧
    (validate_all_columns ["age"]
        (schema_keys [("income", Jval.str "float64"), ("age", Jval.str "int64")])
      = validate_all_columns ["age"] (schema_keys [("age", Jval.str "int64")])) :=
  ⟨(validate_all_columns_iff_subset ["age"] [("age", Jval.str "int64")]).1.mpr
      (by decide),
   (validate_all_columns_iff_subset ["age"] [("age", Jval.str "int64")]).2.1
      "income" (Jval.str "float64") (by decide)⟩

/-- A concrete configuration mapping naming the three paths of a run. -/
def demoConfigMapping : List (String × Jval) :=
  [("dataset_path", Jval.str "data.csv"),
   ("status_file_path", Jval.str "status.txt"),
   ("schema_path", Jval.str "schema.yaml")]

/-- The ValidationConfig resolved from demoConfigMapping. -/
def demoConfig : ValidationConfig :=
  ⟨"data.csv", "status.txt", "schema.yaml"⟩

/-- A concrete file system whose dataset carries the column zipcode that
the schema does not declare. -/
def demoFS : FS :=
  [("config.yaml", FileContent.yamlMapping demoConfigMapping),
   ("schema.yaml", FileContent.yamlMapping
      [("age", Jval.str "int64"), ("income", Jval.str "float64")]),
   ("data.csv", FileContent.csv ["age", "zipcode"])]

/-- demoFS with a stale status record from an earlier run in front. -/
def demoFSStale : FS := ("status.txt", FileContent.statusRecord true) :: demoFS

/-- demoFS extended with one unrelated extra file. -/
def demoGS : FS := demoFS ++ [("extra.txt", FileContent.statusRecord true)]

/-- C2: a dataset column absent from the schema keys is the expected
negative-result path: the run completes without raising, returns false,
and leaves a status record holding false in the status file. -/
theorem validation_mismatch_no_raise (fs : FS) (p : String)
    (cfg : ValidationConfig) (m : List (String × Jval)) (cols : List String)
    (c : String)
    (hcfg : get_data_validation_config fs p = .ok cfg)
    (hs : read_yaml fs cfg.schema_path = .ok m)
    (hd : fsRead fs cfg.dataset_path = some (.csv cols))
    (hc : c ∈ cols) (hn : c ∉ schema_keys m) :
    (initiate_data_validation fs p).1 = .ok false ∧
    fsRead (initiate_data_validation fs p).2 cfg.status_file_path
      = some (.statusRecord false) := by
  have hv : validate_all_columns cols (schema_keys m) = false := by
    cases hbv : validate_all_columns cols (schema_keys m)
    · rfl
    · exact absurd ((validate_eq_true_iff cols (schema_keys m)).mp hbv c hc) hn
  constructor
  · simp [initiate_data_validation, hcfg, hs, hd, hv]
  · simp [initiate_data_validation, hcfg, hs, hd, hv, fsRead_fsWrite_same]

/-- Witness for C2 at a concrete file system. -/
theorem validation_mismatch_no_raise_witness :
    (initiate_data_validation demoFS "config.yaml").1 = .ok false ∧
    fsRead (initiate_data_validation demoFS "config.yaml").2 "status.txt"
      = some (.statusRecord false) :=
  validation_mismatch_no_raise demoFS "config.yaml" demoConfig
    [("age", Jval.str "int64"), ("income", Jval.str "float64")]
    ["age", "zipcode"] "zipcode" rfl rfl rfl (by decide) (by decide)

/-- C3: when loading fails before validation completes the run propagates
the error and the file system, the status file included, is left exactly
as it was before the run. -/
theorem load_failure_leaves_status_file (fs : FS) (p : String) (e : RunError)
    (h : (initiate_data_validation fs p).1 = .error e) :
    (initiate_data_validation fs p).2 = fs := by
  cases hc : get_data_validation_config fs p with
  | error e2 => simp [initiate_data_validation, hc]
  | ok cfg =>
    cases hs : read_yaml fs cfg.schema_path with
    | error e2 => simp [initiate_data_validation, hc, hs]
    | ok m =>
      cases hd : fsRead fs cfg.dataset_path with
      | none => simp [initiate_data_validation, hc, hs, hd]
      | some fc =>
        cases fc with
        | yamlMapping m2 => simp [initiate_data_validation, hc, hs, hd]
        | yamlEmpty => simp [initiate_data_validation, hc, hs, hd]
        | yamlMalformed => simp [initiate_data_validation, hc, hs, hd]
        | csv cols => simp [initiate_data_validation, hc, hs, hd] at h
        | json j => simp [initiate_data_validation, hc, hs, hd]
        | statusRecord b => simp [initiate_data_validation, hc, hs, hd]

/-- Witness for C3: a run lacking the configuration file fails and leaves
an existing status file untouched. -/
theorem load_failure_leaves_status_file_witness :
    (initiate_data_validation [("status.txt", FileContent.statusRecord true)]
        "config.yaml").2
      = [("status.txt", FileContent.statusRecord true)] :=
  load_failure_leaves_status_file
    [("status.txt", FileContent.statusRecord true)] "config.yaml"
    (.configError (.ioError "file not found")) rfl

/-- C5: after a completed run the status file holds exactly one record,
the boolean outcome of that run; prior content of the status file,
whatever it was, is fully overwritten and no history is retained. -/
theorem status_file_most_recent_only (fs : FS) (p : String)
    (cfg : ValidationConfig) (b : Bool)
    (hcfg : get_data_validation_config fs p = .ok cfg)
    (hok : (initiate_data_validation fs p).1 = .ok b) :
    ((initiate_data_validation fs p).2).filter
        (fun e => e.1 == cfg.status_file_path)
      = [(cfg.status_file_path, .statusRecord b)] := by
  cases hs : read_yaml fs cfg.schema_path with
  | error e2 => simp [initiate_data_validation, hcfg, hs] at hok
  | ok m =>
    cases hd : fsRead fs cfg.dataset_path with
    | none => simp [initiate_data_validation, hcfg, hs, hd] at hok
    | some fc =>
      cases fc with
      | csv cols =>
        have hb : validate_all_columns cols (schema_keys m) = b := by
          simpa [initiate_data_validation, hcfg, hs, hd] using hok
        simp only [initiate_data_validation, hcfg, hs, hd]
        rw [hb]
        exact filter_fsWrite_self fs cfg.status_file_path (.statusRecord b)
      | yamlMapping m2 => simp [initiate_data_validation, hcfg, hs, hd] at hok
      | yamlEmpty => simp [initiate_data_validation, hcfg, hs, hd] at hok
      | yamlMalformed => simp [initiate_data_validation, hcfg, hs, hd] at hok
      | json j => simp [initiate_data_validation, hcfg, hs, hd] at hok
      | statusRecord b2 => simp [initiate_data_validation, hcfg, hs, hd] at hok

/-- Witness for C5: the run over a file system carrying a stale status
record of true ends with the status file holding exactly the new false
record. -/
theorem status_file_most_recent_only_witness :
    ((initiate_data_validation demoFSStale "config.yaml").2).filter
        (fun e => e.1 == "status.txt")
      = [("status.txt", FileContent.statusRecord false)] :=
  status_file_most_recent_only demoFSStale "config.yaml" demoConfig false
    rfl rfl

/-- C4: running validation twice in succession with unchanged inputs, the
status file not aliasing the configuration, schema or dataset file,
produces the same outcome and leaves the status file with identical
content after each of the two runs. -/
theorem run_idempotent (fs : FS) (p : String) (cfg : ValidationConfig)
    (hcfg : get_data_validation_config fs p = .ok cfg)
    (h1 : cfg.status_file_path ≠ p)
    (h2 : cfg.status_file_path ≠ cfg.schema_path)
    (h3 : cfg.status_file_path ≠ cfg.dataset_path) :
    (initiate_data_validation (initiate_data_validation fs p).2 p).1
      = (initiate_data_validation fs p).1 ∧
    fsRead (initiate_data_validation (initiate_data_validation fs p).2 p).2
        cfg.status_file_path
      = fsRead (initiate_data_validation fs p).2 cfg.status_file_path := by
  cases hs : read_yaml fs cfg.schema_path with
  | error e2 =>
    have hrun : initiate_data_validation fs p = (.error (.schemaError e2), fs) := by
      simp [initiate_data_validation, hcfg, hs]
    simp [hrun]
  | ok m =>
    cases hd : fsRead fs cfg.dataset_path with
    | none =>
      have hrun : initiate_data_validation fs p
          = (.error .datasetUnreadable, fs) := by
        simp [initiate_data_validation, hcfg, hs, hd]
      simp [hrun]
    | some fc =>
      cases fc with
      | csv cols =>
        have hrun : initiate_data_validation fs p
            = (.ok (validate_all_columns cols (schema_keys m)),
               fsWrite fs cfg.status_file_path
                 (.statusRecord (validate_all_columns cols (schema_keys m)))) := by
          simp [initiate_data_validation, hcfg, hs, hd]
        have hcfg1 : get_data_validation_config
            (fsWrite fs cfg.status_file_path
              (.statusRecord (validate_all_columns cols (schema_keys m)))) p
            = .ok cfg := by
          unfold get_data_validation_config at hcfg ⊢
          rw [read_yaml_fsWrite_ne fs cfg.status_file_path p _ (Ne.symm h1)]
          exact hcfg
        have hs1 : read_yaml
            (fsWrite fs cfg.status_file_path
              (.statusRecord (validate_all_columns cols (schema_keys m))))
            cfg.schema_path = .ok m := by
          rw [read_yaml_fsWrite_ne fs cfg.status_file_path cfg.schema_path _
            (Ne.symm h2)]
          exact hs
        have hd1 : fsRead
            (fsWrite fs cfg.status_file_path
              (.statusRecord (validate_all_columns cols (schema_keys m))))
            cfg.dataset_path = some (.csv cols) := by
          rw [fsRead_fsWrite_ne fs cfg.status_file_path cfg.dataset_path _
            (Ne.symm h3)]
          exact hd
        have hrun2 : initiate_data_validation
            (fsWrite fs cfg.status_file_path
              (.statusRecord (validate_all_columns cols (schema_keys m)))) p
            = (.ok (validate_all_columns cols (schema_keys m)),
               fsWrite (fsWrite fs cfg.status_file_path
                   (.statusRecord (validate_all_columns cols (schema_keys m))))
                 cfg.status_file_path
                 (.statusRecord (validate_all_columns cols (schema_keys m)))) := by
          simp [initiate_data_validation, hcfg1, hs1, hd1]
        simp [hrun, hrun2, fsRead_fsWrite_same]
      | yamlMapping m2 =>
        have hrun : initiate_data_validation fs p
            = (.error .datasetUnreadable, fs) := by
          simp [initiate_data_validation, hcfg, hs, hd]
        simp [hrun]
      | yamlEmpty =>
        have hrun : initiate_data_validation fs p
            = (.error .datasetUnreadable, fs) := by
          simp [initiate_data_validation, hcfg, hs, hd]
        simp [hrun]
      | yamlMalformed =>
        have hrun : initiate_data_validation fs p
            = (.error .datasetUnreadable, fs) := by
          simp [initiate_data_validation, hcfg, hs, hd]
        simp [hrun]
      | json j =>
        have hrun : initiate_data_validation fs p
            = (.error .datasetUnreadable, fs) := by
          simp [initiate_data_validation, hcfg, hs, hd]
        simp [hrun]
      | statusRecord b2 =>
        have hrun : initiate_data_validation fs p
            = (.error .datasetUnreadable, fs) := by
          simp [initiate_data_validation, hcfg, hs, hd]
        simp [hrun]

/-- Witness for C4 at a concrete file system. -/
theorem run_idempotent_witness :
    (initiate_data_validation (initiate_data_validation demoFS "config.yaml").2
        "config.yaml").1
      = (initiate_data_validation demoFS "config.yaml").1 ∧
    fsRead (initiate_data_validation
        (initiate_data_validation demoFS "config.yaml").2 "config.yaml").2
        "status.txt"
      = fsRead (initiate_data_validation demoFS "config.yaml").2 "status.txt" :=
  run_idempotent demoFS "config.yaml" demoConfig rfl
    (by decide) (by decide) (by decide)

/-- C9: the run is deterministic and driven only by the on-disk inputs:
two file systems agreeing on the configuration file and on the schema and
dataset files named by the resolved configuration yield the same
ValidationConfig, the same outcome, and, on success, the same status
record at the status file path. -/
theorem run_deterministic (fs gs : FS) (p : String)
    (hp : fsRead fs p = fsRead gs p)
    (hrest : ∀ cfg, get_data_validation_config fs p = .ok cfg →
      fsRead fs cfg.schema_path = fsRead gs cfg.schema_path ∧
      fsRead fs cfg.dataset_path = fsRead gs cfg.dataset_path) :
    get_data_validation_config fs p = get_data_validation_config gs p ∧
    (initiate_data_validation fs p).1 = (initiate_data_validation gs p).1 ∧
    ∀ cfg b, get_data_validation_config fs p = .ok cfg →
      (initiate_data_validation fs p).1 = .ok b →
      fsRead (initiate_data_validation fs p).2 cfg.status_file_path
        = fsRead (initiate_data_validation gs p).2 cfg.status_file_path := by
  have hry : read_yaml fs p = read_yaml gs p := by
    unfold read_yaml; rw [hp]
  have hgc : get_data_validation_config fs p = get_data_validation_config gs p := by
    unfold get_data_validation_config; rw [hry]
  refine ⟨hgc, ?_⟩
  cases hc : get_data_validation_config fs p with
  | error e =>
    have hc2 : get_data_validation_config gs p = .error e := by
      rw [← hgc]; exact hc
    refine ⟨by simp [initiate_data_validation, hc, hc2], ?_⟩
    intro cfg b hcfg _
    cases hcfg
  | ok cfg =>
    have hc2 : get_data_validation_config gs p = .ok cfg := by
      rw [← hgc]; exact hc
    obtain ⟨hsch, hdat⟩ := hrest cfg hc
    have hrys : read_yaml fs cfg.schema_path = read_yaml gs cfg.schema_path := by
      unfold read_yaml; rw [hsch]
    cases hs : read_yaml fs cfg.schema_path with
    | error e2 =>
      have hs2 : read_yaml gs cfg.schema_path = .error e2 := by
        rw [← hrys]; exact hs
      refine ⟨by simp [initiate_data_validation, hc, hc2, hs, hs2], ?_⟩
      intro cfg2 b hcfg hok
      simp [initiate_data_validation, hc, hs] at hok
    | ok m =>
      have hs2 : read_yaml gs cfg.schema_path = .ok m := by
        rw [← hrys]; exact hs
      cases hd : fsRead fs cfg.dataset_path with
      | none =>
        have hd2 : fsRead gs cfg.dataset_path = none := by
          rw [← hdat]; exact hd
        refine ⟨by simp [initiate_data_validation, hc, hc2, hs, hs2, hd, hd2], ?_⟩
        intro cfg2 b hcfg hok
        simp [initiate_data_validation, hc, hs, hd] at hok
      | some fc =>
        have hd2 : fsRead gs cfg.dataset_path = some fc := by
          rw [← hdat]; exact hd
        cases fc with
        | csv cols =>
          refine ⟨by simp [initiate_data_validation, hc, hc2, hs, hs2, hd, hd2], ?_⟩
          intro cfg2 b hcfg hok
          have hceq : cfg2 = cfg := by
            cases hcfg
            rfl
          subst hceq
          simp [initiate_data_validation, hc, hc2, hs, hs2, hd, hd2,
            fsRead_fsWrite_same]
        | yamlMapping m2 =>
          refine ⟨by simp [initiate_data_validation, hc, hc2, hs, hs2, hd, hd2], ?_⟩
          intro cfg2 b hcfg hok
          simp [initiate_data_validation, hc, hs, hd] at hok
        | yamlEmpty =>
          refine ⟨by simp [initiate_data_validation, hc, hc2, hs, hs2, hd, hd2], ?_⟩
          intro cfg2 b hcfg hok
          simp [initiate_data_validation, hc, hs, hd] at hok
        | yamlMalformed =>
          refine ⟨by simp [initiate_data_validation, hc, hc2, hs, hs2, hd, hd2], ?_⟩
          intro cfg2 b hcfg hok
          simp [initiate_data_validation, hc, hs, hd] at hok
        | json j =>
          refine ⟨by simp [initiate_data_validation, hc, hc2, hs, hs2, hd, hd2], ?_⟩
          intro cfg2 b hcfg hok
          simp [initiate_data_validation, hc, hs, hd] at hok
        | statusRecord b2 =>
          refine ⟨by simp [initiate_data_validation, hc, hc2, hs, hs2, hd, hd2], ?_⟩
          intro cfg2 b hcfg hok
          simp [initiate_data_validation, hc, hs, hd] at hok

/-- Witness for C9: the run over demoFS and over demoFS extended with an
unrelated extra file write the same status record. -/
theorem run_deterministic_witness :
    fsRead (initiate_data_validation demoFS "config.yaml").2 "status.txt"
      = fsRead (initiate_data_validation demoGS "config.yaml").2 "status.txt" :=
  (run_deterministic demoFS demoGS "config.yaml" rfl
    (fun cfg hcfg => by
      have h2 : (Except.ok demoConfig : Except RunError ValidationConfig)
          = .ok cfg := hcfg
      injection h2 with h3
      subst h3
      exact ⟨rfl, rfl⟩)).2.2 demoConfig false rfl rfl

end WineQuality
